import Mathlib

/-!
Shallow embedding of the LCUI timer subsystem (src/src/timer.c).

The registry is the intrusive linked list `self.timer_list`, modelled as a
`List TimerRec` in order.  Every public operation runs while holding
`self.mutex`, so each is modelled as an atomic function from module state to
module state; the `LCUICond_Signal` call is reported as a `Bool` in each
operation's result.  The monotonic clock (`LCUI_GetTime`, `LCUI_GetTimeDelta`)
is modelled by passing the current time `now : Int` as a parameter, with
`LCUI_GetTimeDelta start = now - start`.
-/

/-- State constant STATE_RUN from timer.c. -/
def STATE_RUN : Int := 1

/-- State constant STATE_PAUSE from timer.c. -/
def STATE_PAUSE : Int := 0

/-- One timer record (struct TimerRec_ in timer.c).  The callback function
pointer `func` and its argument `arg` are modelled as opaque tokens; the
intrusive list node is modelled by the record's position in the module's
timer list. -/
structure TimerRec where
  state : Int
  reuse : Bool
  id : Int
  start_time : Int
  pause_time : Int
  total_ms : Int
  pause_ms : Int
  cb : Nat
  arg : Nat
deriving DecidableEq

/-- The module state (static struct TimerModule `self` in timer.c).  The
mutex, condition variable and thread handle carry no data and are not
represented; `id_count` is a C `int`, whose signed overflow is undefined
behaviour, so it is modelled as an unbounded `Int`. -/
structure TimerModule where
  id_count : Int
  timer_list : List TimerRec
  is_running : Bool
deriving DecidableEq

/-- The remaining scheduled time of a timer at time `now`, exactly as computed
inside TimerList_AddNode: `total_ms - LCUI_GetTimeDelta(start_time) + pause_ms`. -/
def remaining (now : Int) (t : TimerRec) : Int :=
  t.total_ms - (now - t.start_time) + t.pause_ms

/-- TimerList_AddNode (timer.c lines 67-86): computes the new node's remaining
time, scans the list head to tail and links the node before the first entry
whose own remaining time is greater than or equal to it (`t <= tt`); if the
scan finishes, appends the node at the tail. -/
def TimerList_AddNode (now : Int) (node : TimerRec) : List TimerRec → List TimerRec
  | [] => [node]
  | cur :: rest =>
    if remaining now node ≤ remaining now cur then
      node :: cur :: rest
    else
      cur :: TimerList_AddNode now node rest

/-- TimerList_Find (timer.c lines 158-169): linear scan for the first record
whose id matches. -/
def TimerList_Find (tid : Int) : List TimerRec → Option TimerRec
  | [] => none
  | t :: rest => if t.id = tid then some t else TimerList_Find tid rest

/-- In-place mutation of the first record whose id matches, as performed by the
Pause/Continue/Reset bodies through the pointer returned by TimerList_Find;
`none` when no record matches. -/
def updateById (tid : Int) (f : TimerRec → TimerRec) : List TimerRec → Option (List TimerRec)
  | [] => none
  | t :: rest =>
    if t.id = tid then some (f t :: rest)
    else (updateById tid f rest).map (t :: ·)

/-- Unlinking of the first record whose id matches, as performed by
LCUITimer_Free via TimerList_Find + LinkedList_Unlink; `none` when no record
matches. -/
def removeById (tid : Int) : List TimerRec → Option (List TimerRec)
  | [] => none
  | t :: rest =>
    if t.id = tid then some rest
    else (removeById tid rest).map (t :: ·)

/-- The scheduler loop's scan (timer.c lines 117-122): first record whose
state is STATE_RUN. -/
def findRunning : List TimerRec → Option TimerRec
  | [] => none
  | t :: rest => if t.state = STATE_RUN then some t else findRunning rest

/-- Unlink of the node found by the scheduler loop's scan: removes the first
record whose state is STATE_RUN. -/
def eraseRunning : List TimerRec → List TimerRec
  | [] => []
  | t :: rest => if t.state = STATE_RUN then rest else t :: eraseRunning rest

/-- Observable events of one scheduler-loop iteration, in program order:
LinkedList_Unlink, free(timer), TimerList_AddNode re-insertion, LCUI_PostTask
hand-off.  `runCallback` would be a direct invocation of the timer's callback
by the loop; the source never performs one, so no code path emits it. -/
inductive Ev where
  | unlink (id : Int)
  | freeEntry (id : Int)
  | reinsert (id : Int)
  | postTask (cb arg : Nat)
  | runCallback (cb arg : Nat)
deriving DecidableEq

/-- Recogniser for `Ev.postTask` events. -/
def Ev.isPostTask : Ev → Bool
  | .postTask _ _ => true
  | _ => false

/-- Recogniser for `Ev.runCallback` events. -/
def Ev.isRunCallback : Ev → Bool
  | .runCallback _ _ => true
  | _ => false

/-- What one iteration of the scheduler loop does instead of (or before)
returning: sleep 10 ms with the lock released (no running timer), a timed
wait on the sleep condition (deadline not reached), or a fire that posts the
given callback and argument. -/
inductive LoopAction where
  | idleSleep (ms : Int)
  | timedWait (ms : Int)
  | fire (cb arg : Nat)
deriving DecidableEq

/-- One iteration of the TimerThread while-loop body (timer.c lines 115-155):
scan for the first STATE_RUN record; if none, sleep 10 ms; otherwise compute
`lost_ms = LCUI_GetTimeDelta(start_time) - pause_ms`; if `lost_ms < total_ms`
perform a timed wait of `total_ms - lost_ms`; otherwise capture the task data,
unlink the node, then either reset `pause_ms`/`start_time` and re-insert it
(reuse) or free it, and finally post the task.  Returns the action taken, the
module state after the iteration, and the event trace in program order. -/
def TimerThread_iter (now : Int) (m : TimerModule) : LoopAction × TimerModule × List Ev :=
  match findRunning m.timer_list with
  | none => (.idleSleep 10, m, [])
  | some timer =>
    let lost_ms := (now - timer.start_time) - timer.pause_ms
    if lost_ms < timer.total_ms then
      (.timedWait (timer.total_ms - lost_ms), m, [])
    else
      let rest := eraseRunning m.timer_list
      if timer.reuse then
        (.fire timer.cb timer.arg,
         { m with timer_list :=
             TimerList_AddNode now { timer with pause_ms := 0, start_time := now } rest },
         [.unlink timer.id, .reinsert timer.id, .postTask timer.cb timer.arg])
      else
        (.fire timer.cb timer.arg,
         { m with timer_list := rest },
         [.unlink timer.id, .freeEntry timer.id, .postTask timer.cb timer.arg])

/-- Result of LCUITimer_Set.  The source does not check the result of
`malloc`: when allocation fails it immediately writes through the null pointer
(`timer->arg = arg`), which is undefined behaviour, modelled as `nullDeref`;
there is no out-of-memory error return in the source. -/
inductive SetResult where
  | notRunning
  | nullDeref
  | ok (id : Int)
deriving DecidableEq

/-- LCUITimer_Set (timer.c lines 176-202).  `allocOk` models whether `malloc`
succeeds.  The source never initialises the new record's `pause_time` field
(`malloc` without memset), so its indeterminate initial value is the
parameter `pause_time0`.  The third component of the result records whether
LCUICond_Signal was called. -/
def LCUITimer_Set (now n_ms : Int) (cb arg : Nat) (reuse : Bool)
    (allocOk : Bool) (pause_time0 : Int) (m : TimerModule) :
    SetResult × TimerModule × Bool :=
  if m.is_running = false then (.notRunning, m, false)
  else if allocOk = false then (.nullDeref, m, false)
  else
    let timer : TimerRec :=
      { state := STATE_RUN, reuse := reuse, id := m.id_count + 1,
        start_time := now, pause_time := pause_time0,
        total_ms := n_ms, pause_ms := 0, cb := cb, arg := arg }
    (.ok (m.id_count + 1),
     { m with id_count := m.id_count + 1,
              timer_list := TimerList_AddNode now timer m.timer_list },
     true)

/-- LCUITimer_SetTimeout (timer.c lines 204-209): LCUITimer_Set with FALSE. -/
def LCUITimer_SetTimeout (now n_ms : Int) (cb arg : Nat)
    (allocOk : Bool) (pause_time0 : Int) (m : TimerModule) :
    SetResult × TimerModule × Bool :=
  LCUITimer_Set now n_ms cb arg false allocOk pause_time0 m

/-- LCUITimer_SetInterval (timer.c lines 211-216): LCUITimer_Set with TRUE. -/
def LCUITimer_SetInterval (now n_ms : Int) (cb arg : Nat)
    (allocOk : Bool) (pause_time0 : Int) (m : TimerModule) :
    SetResult × TimerModule × Bool :=
  LCUITimer_Set now n_ms cb arg true allocOk pause_time0 m

/-- LCUITimer_Free (timer.c lines 217-234): find by id; if absent, unlock and
return -1 without signalling; if present, unlink it, free it, signal, return 0. -/
def LCUITimer_Free (tid : Int) (m : TimerModule) : Int × TimerModule × Bool :=
  if m.is_running = false then (-1, m, false)
  else
    match removeById tid m.timer_list with
    | none => (-1, m, false)
    | some l => (0, { m with timer_list := l }, true)

/-- LCUITimer_Pause (timer.c lines 236-252): find by id; if present (no state
check in the source), set `pause_time := now` and `state := STATE_PAUSE`;
signal unconditionally; return 0 when found, -1 otherwise. -/
def LCUITimer_Pause (now tid : Int) (m : TimerModule) : Int × TimerModule × Bool :=
  if m.is_running = false then (-1, m, false)
  else
    match updateById tid
        (fun t => { t with pause_time := now, state := STATE_PAUSE }) m.timer_list with
    | some l => (0, { m with timer_list := l }, true)
    | none => (-1, m, true)

/-- LCUITimer_Continue (timer.c lines 254-270): find by id; if present (no
state check in the source), add `LCUI_GetTimeDelta(pause_time)` to `pause_ms`
and set `state := STATE_RUN`; signal unconditionally; return 0 when found,
-1 otherwise. -/
def LCUITimer_Continue (now tid : Int) (m : TimerModule) : Int × TimerModule × Bool :=
  if m.is_running = false then (-1, m, false)
  else
    match updateById tid
        (fun t => { t with pause_ms := t.pause_ms + (now - t.pause_time),
                           state := STATE_RUN }) m.timer_list with
    | some l => (0, { m with timer_list := l }, true)
    | none => (-1, m, true)

/-- LCUITimer_Reset (timer.c lines 272-288): find by id; if present, set
`pause_ms := 0`, `total_ms := n_ms`, `start_time := now`; signal
unconditionally; return 0 when found, -1 otherwise. -/
def LCUITimer_Reset (now tid n_ms : Int) (m : TimerModule) : Int × TimerModule × Bool :=
  if m.is_running = false then (-1, m, false)
  else
    match updateById tid
        (fun t => { t with pause_ms := 0, total_ms := n_ms, start_time := now }) m.timer_list with
    | some l => (0, { m with timer_list := l }, true)
    | none => (-1, m, true)

/-! ### Helper lemmas -/

/-- TimerList_AddNode places the node after exactly those existing entries
whose remaining time is strictly smaller than the node's own. -/
theorem TimerList_AddNode_eq (now : Int) (t : TimerRec) (l : List TimerRec) :
    TimerList_AddNode now t l =
      (l.takeWhile fun c => decide (remaining now c < remaining now t)) ++
        t :: (l.dropWhile fun c => decide (remaining now c < remaining now t)) := by
  induction l with
  | nil => simp [TimerList_AddNode]
  | cons c rest ih =>
    by_cases h : remaining now t ≤ remaining now c
    · have h2 : ¬ remaining now c < remaining now t := not_lt.2 h
      simp [TimerList_AddNode, h, List.takeWhile_cons, List.dropWhile_cons, h2]
    · have h2 : remaining now c < remaining now t := not_le.1 h
      simp [TimerList_AddNode, h, List.takeWhile_cons, List.dropWhile_cons, h2, ih]

/-- Membership in the result of TimerList_AddNode. -/
theorem mem_TimerList_AddNode (now : Int) (t u : TimerRec) (l : List TimerRec)
    (hu : u ∈ TimerList_AddNode now t l) : u = t ∨ u ∈ l := by
  induction l with
  | nil => simpa [TimerList_AddNode] using hu
  | cons c rest ih =>
    by_cases h : remaining now t ≤ remaining now c
    · simp only [TimerList_AddNode, if_pos h, List.mem_cons] at hu
      simp only [List.mem_cons]
      tauto
    · simp only [TimerList_AddNode, if_neg h, List.mem_cons] at hu
      simp only [List.mem_cons]
      rcases hu with h1 | h2
      · exact Or.inr (Or.inl h1)
      · rcases ih h2 with h3 | h4
        · exact Or.inl h3
        · exact Or.inr (Or.inr h4)

/-- TimerList_Find returns `none` exactly when no record carries the id. -/
theorem TimerList_Find_eq_none (tid : Int) (l : List TimerRec) :
    TimerList_Find tid l = none ↔ ∀ u ∈ l, u.id ≠ tid := by
  induction l with
  | nil => simp [TimerList_Find]
  | cons t rest ih =>
    by_cases h : t.id = tid
    · simp [TimerList_Find, h]
    · simp [TimerList_Find, h, ih]

/-- updateById returns `none` exactly when no record carries the id. -/
theorem updateById_eq_none (tid : Int) (f : TimerRec → TimerRec) (l : List TimerRec) :
    updateById tid f l = none ↔ ∀ u ∈ l, u.id ≠ tid := by
  induction l with
  | nil => simp [updateById]
  | cons t rest ih =>
    by_cases h : t.id = tid
    · simp [updateById, h]
    · simp [updateById, h, ih]

/-- removeById returns `none` exactly when no record carries the id. -/
theorem removeById_eq_none (tid : Int) (l : List TimerRec) :
    removeById tid l = none ↔ ∀ u ∈ l, u.id ≠ tid := by
  induction l with
  | nil => simp [removeById]
  | cons t rest ih =>
    by_cases h : t.id = tid
    · simp [removeById, h]
    · simp [removeById, h, ih]

/-- updateById rewrites exactly the first record carrying the id, in place. -/
theorem updateById_split (tid : Int) (f : TimerRec → TimerRec) :
    ∀ (l₁ : List TimerRec) (t : TimerRec) (l₂ : List TimerRec),
      (∀ u ∈ l₁, u.id ≠ tid) → t.id = tid →
      updateById tid f (l₁ ++ t :: l₂) = some (l₁ ++ f t :: l₂) := by
  intro l₁
  induction l₁ with
  | nil =>
    intro t l₂ _ ht
    simp [updateById, ht]
  | cons a rest ih =>
    intro t l₂ h ht
    have ha : a.id ≠ tid := h a (by simp)
    have hrest : ∀ u ∈ rest, u.id ≠ tid := fun u hu => h u (by simp [hu])
    simp [updateById, ha, ih t l₂ hrest ht]

/-- removeById unlinks exactly the first record carrying the id. -/
theorem removeById_split (tid : Int) :
    ∀ (l₁ : List TimerRec) (t : TimerRec) (l₂ : List TimerRec),
      (∀ u ∈ l₁, u.id ≠ tid) → t.id = tid →
      removeById tid (l₁ ++ t :: l₂) = some (l₁ ++ l₂) := by
  intro l₁
  induction l₁ with
  | nil =>
    intro t l₂ _ ht
    simp [removeById, ht]
  | cons a rest ih =>
    intro t l₂ h ht
    have ha : a.id ≠ tid := h a (by simp)
    have hrest : ∀ u ∈ rest, u.id ≠ tid := fun u hu => h u (by simp [hu])
    simp [removeById, ha, ih t l₂ hrest ht]

/-! ### Claim theorems -/

/-- Claim C1: when the scheduler loop's scan selects a timer whose elapsed
running time `now - start_time - pause_ms` is still below `total_ms`, the
iteration fires nothing and performs a timed wait of `total_ms - elapsed`,
leaving the module unchanged; a fire action therefore occurs only when the
elapsed running time has reached `total_ms`. -/
theorem C1_no_early_fire (now : Int) (m : TimerModule) (t : TimerRec)
    (hfind : findRunning m.timer_list = some t) :
    ((now - t.start_time) - t.pause_ms < t.total_ms →
      TimerThread_iter now m =
        (.timedWait (t.total_ms - ((now - t.start_time) - t.pause_ms)), m, [])) ∧
    (t.total_ms ≤ (now - t.start_time) - t.pause_ms →
      (TimerThread_iter now m).1 = .fire t.cb t.arg) := by
  constructor
  · intro h
    simp [TimerThread_iter, hfind, h]
  · intro h
    have h2 : ¬ ((now - t.start_time) - t.pause_ms < t.total_ms) := not_lt.2 h
    by_cases hr : t.reuse <;> simp [TimerThread_iter, hfind, h2, hr]

/-- Concrete fixture: a single running one-shot timer of 50 ms started at 0. -/
def wEntry1 : TimerRec :=
  { state := STATE_RUN, reuse := false, id := 1, start_time := 0, pause_time := 0,
    total_ms := 50, pause_ms := 0, cb := 5, arg := 6 }

/-- Concrete fixture module holding `wEntry1`. -/
def wModule1 : TimerModule :=
  { id_count := 1, timer_list := [wEntry1], is_running := true }

/-- Witness for C1: at time 40 the 50 ms timer is not fired, a 10 ms timed
wait happens instead; at time 60 the iteration fires it. -/
theorem C1_no_early_fire_witness :
    TimerThread_iter 40 wModule1 =
      (.timedWait (wEntry1.total_ms - ((40 - wEntry1.start_time) - wEntry1.pause_ms)),
       wModule1, []) ∧
    (TimerThread_iter 60 wModule1).1 = .fire wEntry1.cb wEntry1.arg :=
  ⟨(C1_no_early_fire 40 wModule1 wEntry1 (by decide)).1 (by decide),
   (C1_no_early_fire 60 wModule1 wEntry1 (by decide)).2 (by decide)⟩

/-- Claim C3: when the scheduler loop fires the selected timer, the event
trace is unlink, then free (one-shot) or reinsert (repeating), then a single
task hand-off; a repeating timer is reinserted with `pause_ms = 0` and
`start_time = now` (so its remaining time restarts at `total_ms`) before the
hand-off; exactly one postTask event occurs and the loop emits no direct
callback invocation. -/
theorem C3_fire_effects (now : Int) (m : TimerModule) (t : TimerRec)
    (hfind : findRunning m.timer_list = some t)
    (hdl : t.total_ms ≤ (now - t.start_time) - t.pause_ms) :
    (t.reuse = true →
      TimerThread_iter now m =
        (.fire t.cb t.arg,
         { m with timer_list :=
             (TimerList_AddNode now { t with pause_ms := 0, start_time := now }
               (eraseRunning m.timer_list)) },
         [.unlink t.id, .reinsert t.id, .postTask t.cb t.arg])) ∧
    (t.reuse = false →
      TimerThread_iter now m =
        (.fire t.cb t.arg, { m with timer_list := eraseRunning m.timer_list },
         [.unlink t.id, .freeEntry t.id, .postTask t.cb t.arg])) ∧
    ((TimerThread_iter now m).2.2.countP Ev.isPostTask = 1) ∧
    ((TimerThread_iter now m).2.2.countP Ev.isRunCallback = 0) ∧
    remaining now { t with pause_ms := 0, start_time := now } = t.total_ms := by
  have h2 : ¬ ((now - t.start_time) - t.pause_ms < t.total_ms) := not_lt.2 hdl
  refine ⟨?_, ?_, ?_, ?_, ?_⟩
  · intro hr; simp [TimerThread_iter, hfind, h2, hr]
  · intro hr; simp [TimerThread_iter, hfind, h2, hr]
  · by_cases hr : t.reuse <;>
      simp [TimerThread_iter, hfind, h2, hr, List.countP_cons, Ev.isPostTask]
  · by_cases hr : t.reuse <;>
      simp [TimerThread_iter, hfind, h2, hr, List.countP_cons, Ev.isRunCallback]
  · simp [remaining]

/-- Concrete fixture: a single running repeating timer of 20 ms started at 0. -/
def wEntry2 : TimerRec :=
  { state := STATE_RUN, reuse := true, id := 2, start_time := 0, pause_time := 0,
    total_ms := 20, pause_ms := 0, cb := 7, arg := 8 }

/-- Concrete fixture module holding `wEntry2`. -/
def wModule2 : TimerModule :=
  { id_count := 2, timer_list := [wEntry2], is_running := true }

/-- Witness for C3: at time 25 the 20 ms repeating timer fires with the
unlink / reinsert / postTask trace and exactly one task hand-off. -/
theorem C3_fire_effects_witness :
    TimerThread_iter 25 wModule2 =
      (.fire wEntry2.cb wEntry2.arg,
       { wModule2 with timer_list :=
           (TimerList_AddNode 25 { wEntry2 with pause_ms := 0, start_time := 25 }
             (eraseRunning wModule2.timer_list)) },
       [.unlink wEntry2.id, .reinsert wEntry2.id, .postTask wEntry2.cb wEntry2.arg]) ∧
    (TimerThread_iter 25 wModule2).2.2.countP Ev.isPostTask = 1 :=
  ⟨(C3_fire_effects 25 wModule2 wEntry2 (by decide) (by decide)).1 (by decide),
   (C3_fire_effects 25 wModule2 wEntry2 (by decide) (by decide)).2.2.1⟩

/-- Claim C2: TimerList_AddNode computes the new entry's remaining time at the
current time, scans the list head to tail and links the entry immediately
before the first existing entry whose own recomputed remaining time is
greater than or equal to the new entry's — the skipped prefix is exactly the
entries with strictly smaller remaining time — appending at the tail when no
entry qualifies; hence among entries with equal remaining time the newly
inserted entry is placed ahead (LIFO tie-break). -/
theorem C2_insert_position (now : Int) (t : TimerRec) (l : List TimerRec) :
    TimerList_AddNode now t l =
      (l.takeWhile fun c => decide (remaining now c < remaining now t)) ++
        t :: (l.dropWhile fun c => decide (remaining now c < remaining now t)) ∧
    (∀ u ∈ (l.takeWhile fun c => decide (remaining now c < remaining now t)),
      remaining now u < remaining now t) ∧
    ((∀ u ∈ l, remaining now u < remaining now t) →
      TimerList_AddNode now t l = l ++ [t]) := by
  refine ⟨TimerList_AddNode_eq now t l, ?_, ?_⟩
  · intro u hu
    have h := List.mem_takeWhile_imp hu
    simpa using h
  · intro h
    rw [TimerList_AddNode_eq now t l]
    have htake : (l.takeWhile fun c => decide (remaining now c < remaining now t)) = l :=
      List.takeWhile_eq_self_iff.2 (fun a ha => by simpa using h a ha)
    have hdrop : (l.dropWhile fun c => decide (remaining now c < remaining now t)) = [] :=
      List.dropWhile_eq_nil_iff.2 (fun a ha => by simpa using h a ha)
    rw [htake, hdrop]

/-- Fixture entries for the C2 witness: at time 0, `wA` has remaining time 30
and `wB` has remaining time 50, equal to the new entry `wT`. -/
def wA : TimerRec :=
  { state := STATE_RUN, reuse := false, id := 10, start_time := 0, pause_time := 0,
    total_ms := 30, pause_ms := 0, cb := 0, arg := 0 }

/-- Second fixture entry for the C2 witness (remaining 50 at time 0). -/
def wB : TimerRec :=
  { state := STATE_RUN, reuse := false, id := 11, start_time := 0, pause_time := 0,
    total_ms := 50, pause_ms := 0, cb := 0, arg := 0 }

/-- New entry for the C2 witness (remaining 50 at time 0, tying with `wB`). -/
def wT : TimerRec :=
  { state := STATE_RUN, reuse := false, id := 12, start_time := 0, pause_time := 0,
    total_ms := 50, pause_ms := 0, cb := 0, arg := 0 }

/-- Witness for C2: inserting `wT` (remaining 50) into [wA, wB] places it
after `wA` (remaining 30) and ahead of the equally remaining `wB`. -/
theorem C2_insert_position_witness :
    TimerList_AddNode 0 wT [wA, wB] =
      (([wA, wB].takeWhile fun c => decide (remaining 0 c < remaining 0 wT)) ++
        wT :: ([wA, wB].dropWhile fun c => decide (remaining 0 c < remaining 0 wT))) ∧
    TimerList_AddNode 0 wT [wA, wB] = [wA, wT, wB] :=
  ⟨(C2_insert_position 0 wT [wA, wB]).1, by decide⟩

/-- Fixture for C4: a module whose single entry (id 1) is already PAUSED. -/
def cexPausedEntry : TimerRec :=
  { state := STATE_PAUSE, reuse := false, id := 1, start_time := 0, pause_time := 3,
    total_ms := 50, pause_ms := 0, cb := 0, arg := 0 }

/-- Fixture module holding `cexPausedEntry`, service running. -/
def cexPausedModule : TimerModule :=
  { id_count := 1, timer_list := [cexPausedEntry], is_running := true }

/-- Counterexample to claim C4 as stated: entry 1 is found and its state is
already PAUSED, yet LCUITimer_Pause returns success (0), not a not-found
failure — the source performs no state check — and it even overwrites the
entry's pause_time with the new current time. -/
theorem C4_pause_counterexample :
    (TimerList_Find 1 cexPausedModule.timer_list).map (fun t => t.state) =
      some STATE_PAUSE ∧
    (LCUITimer_Pause 7 1 cexPausedModule).1 = 0 ∧
    (TimerList_Find 1 (LCUITimer_Pause 7 1 cexPausedModule).2.1.timer_list).map
      (fun t => t.pause_time) = some 7 := by decide

/-- Claim C4 (amended): Pause(id) succeeds exactly when the service is running
and an entry with the id is found, regardless of its current state (including
when already PAUSED): it records pause_time = now and sets the state to
PAUSED, leaving the entry's position and every other entry unchanged; it
fails with not-found only when no entry carries the id. -/
theorem C4_pause_amended (now tid : Int) (m : TimerModule) (hrun : m.is_running = true)
    (l₁ : List TimerRec) (t : TimerRec) (l₂ : List TimerRec)
    (hsplit : m.timer_list = l₁ ++ t :: l₂) (hpre : ∀ u ∈ l₁, u.id ≠ tid)
    (ht : t.id = tid) :
    LCUITimer_Pause now tid m =
      (0, { m with timer_list :=
              l₁ ++ { t with pause_time := now, state := STATE_PAUSE } :: l₂ },
       true) ∧
    ∀ m₂ : TimerModule, m₂.is_running = true →
      TimerList_Find tid m₂.timer_list = none →
      LCUITimer_Pause now tid m₂ = (-1, m₂, true) := by
  constructor
  · have h := updateById_split tid
      (fun u => { u with pause_time := now, state := STATE_PAUSE }) l₁ t l₂ hpre ht
    simp [LCUITimer_Pause, hrun, hsplit, h]
  · intro m₂ h2 hnf
    have hids : ∀ u ∈ m₂.timer_list, u.id ≠ tid :=
      (TimerList_Find_eq_none tid m₂.timer_list).1 hnf
    have hnone := (updateById_eq_none tid
      (fun u => { u with pause_time := now, state := STATE_PAUSE }) m₂.timer_list).2 hids
    simp [LCUITimer_Pause, h2, hnone]

/-- Witness for the amended C4: pausing the already paused entry 1 succeeds
and rewrites its pause_time and state in place. -/
theorem C4_pause_amended_witness :
    LCUITimer_Pause 7 1 cexPausedModule =
      (0, { cexPausedModule with
              timer_list :=
                [] ++ { cexPausedEntry with pause_time := 7, state := STATE_PAUSE } :: [] },
       true) :=
  (C4_pause_amended 7 1 cexPausedModule (by decide) [] cexPausedEntry [] (by decide)
    (by decide) (by decide)).1

/-- Fixture for C5: a module whose single entry (id 2) is RUNNING and has
pause_time = 2 from an earlier pause. -/
def cexRunningEntry : TimerRec :=
  { state := STATE_RUN, reuse := false, id := 2, start_time := 0, pause_time := 2,
    total_ms := 50, pause_ms := 0, cb := 0, arg := 0 }

/-- Fixture module holding `cexRunningEntry`, service running. -/
def cexRunningModule : TimerModule :=
  { id_count := 2, timer_list := [cexRunningEntry], is_running := true }

/-- Counterexample to claim C5 as stated: entry 2 is found and its state is
RUNNING, yet LCUITimer_Continue returns success (0), not a not-found failure,
and it does change the entry: pause_ms grows by now - pause_time = 7. -/
theorem C5_continue_counterexample :
    (TimerList_Find 2 cexRunningModule.timer_list).map (fun t => t.state) =
      some STATE_RUN ∧
    (LCUITimer_Continue 9 2 cexRunningModule).1 = 0 ∧
    (TimerList_Find 2 (LCUITimer_Continue 9 2 cexRunningModule).2.1.timer_list).map
      (fun t => t.pause_ms) = some 7 := by decide

/-- Claim C5 (amended): Continue(id) succeeds exactly when the service is
running and an entry with the id is found, regardless of its current state
(including when RUNNING): it adds now - pause_time to pause_ms and sets the
state to RUNNING, leaving the entry's position and every other entry
unchanged; it fails with not-found only when no entry carries the id. -/
theorem C5_continue_amended (now tid : Int) (m : TimerModule) (hrun : m.is_running = true)
    (l₁ : List TimerRec) (t : TimerRec) (l₂ : List TimerRec)
    (hsplit : m.timer_list = l₁ ++ t :: l₂) (hpre : ∀ u ∈ l₁, u.id ≠ tid)
    (ht : t.id = tid) :
    LCUITimer_Continue now tid m =
      (0, { m with timer_list :=
              l₁ ++ { t with pause_ms := t.pause_ms + (now - t.pause_time),
                             state := STATE_RUN } :: l₂ },
       true) ∧
    ∀ m₂ : TimerModule, m₂.is_running = true →
      TimerList_Find tid m₂.timer_list = none →
      LCUITimer_Continue now tid m₂ = (-1, m₂, true) := by
  constructor
  · have h := updateById_split tid
      (fun u => { u with pause_ms := u.pause_ms + (now - u.pause_time),
                         state := STATE_RUN }) l₁ t l₂ hpre ht
    simp [LCUITimer_Continue, hrun, hsplit, h]
  · intro m₂ h2 hnf
    have hids : ∀ u ∈ m₂.timer_list, u.id ≠ tid :=
      (TimerList_Find_eq_none tid m₂.timer_list).1 hnf
    have hnone := (updateById_eq_none tid
      (fun u => { u with pause_ms := u.pause_ms + (now - u.pause_time),
                         state := STATE_RUN }) m₂.timer_list).2 hids
    simp [LCUITimer_Continue, h2, hnone]

/-- Witness for the amended C5: continuing the RUNNING entry 2 succeeds and
adds 9 - 2 to its pause_ms in place. -/
theorem C5_continue_amended_witness :
    LCUITimer_Continue 9 2 cexRunningModule =
      (0, { cexRunningModule with
              timer_list :=
                [] ++ { cexRunningEntry with
                          pause_ms := cexRunningEntry.pause_ms + (9 - cexRunningEntry.pause_time),
                          state := STATE_RUN } :: [] },
       true) :=
  (C5_continue_amended 9 2 cexRunningModule (by decide) [] cexRunningEntry [] (by decide)
    (by decide) (by decide)).1

/-- Claim C6: with the service running and allocation succeeding,
LCUITimer_Set assigns the fresh id id_count + 1 — positive and strictly
greater than every previously assigned id, so ids are unique and never
reused — creates the entry with state STATE_RUN, pause_ms 0 and start_time
now, inserts it through TimerList_AddNode and signals the wake condition;
with the service stopped it fails with the not-running result; SetTimeout and
SetInterval are exactly Set with reuse FALSE resp. TRUE. -/
theorem C6_set (now n_ms : Int) (cb arg : Nat) (reuse : Bool) (pt0 : Int)
    (m : TimerModule) (hrun : m.is_running = true) (hpos : 0 ≤ m.id_count)
    (hinv : ∀ u ∈ m.timer_list, u.id ≤ m.id_count)
    (m₂ : TimerModule) (hstop : m₂.is_running = false) :
    LCUITimer_Set now n_ms cb arg reuse true pt0 m =
      (.ok (m.id_count + 1),
       { m with id_count := m.id_count + 1,
                timer_list := (TimerList_AddNode now
                  { state := STATE_RUN, reuse := reuse, id := m.id_count + 1,
                    start_time := now, pause_time := pt0, total_ms := n_ms,
                    pause_ms := 0, cb := cb, arg := arg } m.timer_list) },
       true) ∧
    0 < m.id_count + 1 ∧
    (∀ u ∈ m.timer_list, u.id < m.id_count + 1) ∧
    (∀ u ∈ (LCUITimer_Set now n_ms cb arg reuse true pt0 m).2.1.timer_list,
       u.id ≤ (LCUITimer_Set now n_ms cb arg reuse true pt0 m).2.1.id_count) ∧
    LCUITimer_Set now n_ms cb arg reuse true pt0 m₂ = (.notRunning, m₂, false) ∧
    LCUITimer_SetTimeout now n_ms cb arg true pt0 m =
      LCUITimer_Set now n_ms cb arg false true pt0 m ∧
    LCUITimer_SetInterval now n_ms cb arg true pt0 m =
      LCUITimer_Set now n_ms cb arg true true pt0 m := by
  have hset : LCUITimer_Set now n_ms cb arg reuse true pt0 m =
      (.ok (m.id_count + 1),
       { m with id_count := m.id_count + 1,
                timer_list := (TimerList_AddNode now
                  { state := STATE_RUN, reuse := reuse, id := m.id_count + 1,
                    start_time := now, pause_time := pt0, total_ms := n_ms,
                    pause_ms := 0, cb := cb, arg := arg } m.timer_list) },
       true) := by
    simp [LCUITimer_Set, hrun]
  refine ⟨hset, by omega, ?_, ?_, ?_, rfl, rfl⟩
  · intro u hu
    have := hinv u hu
    omega
  · intro u hu
    rw [hset] at hu ⊢
    simp only at hu ⊢
    rcases mem_TimerList_AddNode now _ u m.timer_list hu with h | h
    · rw [h]
    · have := hinv u h
      omega
  · simp [LCUITimer_Set, hstop]

/-- Fixture: an empty running module with id_count 0. -/
def wEmptyModule : TimerModule :=
  { id_count := 0, timer_list := [], is_running := true }

/-- Fixture: a stopped module. -/
def wStoppedModule : TimerModule :=
  { id_count := 0, timer_list := [], is_running := false }

/-- Witness for C6: a concrete Set on the empty running module returns id 1
and signals; on the stopped module it fails with notRunning. -/
theorem C6_set_witness :
    LCUITimer_Set 3 40 1 2 false true 0 wEmptyModule =
      (.ok (wEmptyModule.id_count + 1),
       { wEmptyModule with id_count := wEmptyModule.id_count + 1,
                           timer_list := (TimerList_AddNode 3
                             { state := STATE_RUN, reuse := false,
                               id := wEmptyModule.id_count + 1, start_time := 3,
                               pause_time := 0, total_ms := 40, pause_ms := 0,
                               cb := 1, arg := 2 } wEmptyModule.timer_list) },
       true) ∧
    LCUITimer_Set 3 40 1 2 false true 0 wStoppedModule =
      (.notRunning, wStoppedModule, false) :=
  ⟨(C6_set 3 40 1 2 false 0 wEmptyModule (by decide) (by decide) (by decide)
      wStoppedModule (by decide)).1,
   (C6_set 3 40 1 2 false 0 wEmptyModule (by decide) (by decide) (by decide)
      wStoppedModule (by decide)).2.2.2.2.1⟩

/-- Claim C7: with the service running, LCUITimer_Free succeeds exactly when
an entry with the id is in the registry — it unlinks that entry and signals
the wake condition; when no entry carries the id it fails with -1 without any
modification; in particular a second Free on the same id after a successful
first Free fails (given the id occurred only once). -/
theorem C7_free (tid : Int) (m : TimerModule) (hrun : m.is_running = true)
    (l₁ : List TimerRec) (t : TimerRec) (l₂ : List TimerRec)
    (hsplit : m.timer_list = l₁ ++ t :: l₂) (hpre : ∀ u ∈ l₁, u.id ≠ tid)
    (ht : t.id = tid) :
    LCUITimer_Free tid m = (0, { m with timer_list := l₁ ++ l₂ }, true) ∧
    ((∀ u ∈ l₂, u.id ≠ tid) →
      LCUITimer_Free tid { m with timer_list := l₁ ++ l₂ } =
        (-1, { m with timer_list := l₁ ++ l₂ }, false)) ∧
    ∀ m₂ : TimerModule, m₂.is_running = true →
      TimerList_Find tid m₂.timer_list = none →
      LCUITimer_Free tid m₂ = (-1, m₂, false) := by
  refine ⟨?_, ?_, ?_⟩
  · have h := removeById_split tid l₁ t l₂ hpre ht
    simp [LCUITimer_Free, hrun, hsplit, h]
  · intro h2
    have hids : ∀ u ∈ l₁ ++ l₂, u.id ≠ tid := by
      intro u hu
      rcases List.mem_append.1 hu with h | h
      · exact hpre u h
      · exact h2 u h
    have hnone := (removeById_eq_none tid (l₁ ++ l₂)).2 hids
    simp [LCUITimer_Free, hrun, hnone]
  · intro m₂ hrun₂ hnf
    have hids : ∀ u ∈ m₂.timer_list, u.id ≠ tid :=
      (TimerList_Find_eq_none tid m₂.timer_list).1 hnf
    have hnone := (removeById_eq_none tid m₂.timer_list).2 hids
    simp [LCUITimer_Free, hrun₂, hnone]

/-- Witness for C7: freeing the only timer (id 1) succeeds and empties the
registry; the second Free on the same id fails without signalling. -/
theorem C7_free_witness :
    LCUITimer_Free 1 wModule1 = (0, { wModule1 with timer_list := [] ++ [] }, true) ∧
    LCUITimer_Free 1 { wModule1 with timer_list := [] ++ [] } =
      (-1, { wModule1 with timer_list := [] ++ [] }, false) :=
  ⟨(C7_free 1 wModule1 (by decide) [] wEntry1 [] (by decide) (by decide) (by decide)).1,
   (C7_free 1 wModule1 (by decide) [] wEntry1 [] (by decide) (by decide) (by decide)).2.1
     (by decide)⟩

/-- Claim C8: with the service running, LCUITimer_Reset on a found id sets
total_ms to the new duration, pause_ms to 0 and start_time to now, leaving
the entry's state, id and position and every other entry unchanged, and the
updated entry's remaining time at the call instant is exactly the new
duration (the countdown restarts from the call time); on a not-found id it
fails with -1. -/
theorem C8_reset (now tid n_ms : Int) (m : TimerModule) (hrun : m.is_running = true)
    (l₁ : List TimerRec) (t : TimerRec) (l₂ : List TimerRec)
    (hsplit : m.timer_list = l₁ ++ t :: l₂) (hpre : ∀ u ∈ l₁, u.id ≠ tid)
    (ht : t.id = tid) :
    LCUITimer_Reset now tid n_ms m =
      (0, { m with timer_list :=
              l₁ ++ { t with pause_ms := 0, total_ms := n_ms, start_time := now } :: l₂ },
       true) ∧
    ({ t with pause_ms := 0, total_ms := n_ms, start_time := now } : TimerRec).state
      = t.state ∧
    ({ t with pause_ms := 0, total_ms := n_ms, start_time := now } : TimerRec).id = t.id ∧
    remaining now { t with pause_ms := 0, total_ms := n_ms, start_time := now } = n_ms ∧
    ∀ m₂ : TimerModule, m₂.is_running = true →
      TimerList_Find tid m₂.timer_list = none →
      LCUITimer_Reset now tid n_ms m₂ = (-1, m₂, true) := by
  refine ⟨?_, rfl, rfl, ?_, ?_⟩
  · have h := updateById_split tid
      (fun u => { u with pause_ms := 0, total_ms := n_ms, start_time := now }) l₁ t l₂ hpre ht
    simp [LCUITimer_Reset, hrun, hsplit, h]
  · simp [remaining]
  · intro m₂ hrun₂ hnf
    have hids : ∀ u ∈ m₂.timer_list, u.id ≠ tid :=
      (TimerList_Find_eq_none tid m₂.timer_list).1 hnf
    have hnone := (updateById_eq_none tid
      (fun u => { u with pause_ms := 0, total_ms := n_ms, start_time := now })
      m₂.timer_list).2 hids
    simp [LCUITimer_Reset, hrun₂, hnone]

/-- Witness for C8: resetting timer 1 at time 30 to 100 ms rewrites exactly
its timing fields in place. -/
theorem C8_reset_witness :
    LCUITimer_Reset 30 1 100 wModule1 =
      (0, { wModule1 with timer_list :=
              [] ++ { wEntry1 with pause_ms := 0, total_ms := 100, start_time := 30 } :: [] },
       true) ∧
    remaining 30 { wEntry1 with pause_ms := 0, total_ms := 100, start_time := 30 } = 100 :=
  ⟨(C8_reset 30 1 100 wModule1 (by decide) [] wEntry1 [] (by decide) (by decide)
      (by decide)).1,
   (C8_reset 30 1 100 wModule1 (by decide) [] wEntry1 [] (by decide) (by decide)
      (by decide)).2.2.2.1⟩

/-- Claim C9: the specified behaviour — returning an explicit out-of-memory
failure when malloc fails inside Set — is absent from the source: timer.c
line 183 calls malloc and line 184 immediately writes `timer->arg = arg`
without any null check, so on allocation failure the code dereferences the
null pointer (undefined behaviour) instead of returning an error; the model
records this path as `nullDeref`, and no out-of-memory error result exists. -/
theorem C9_alloc_unchecked :
    LCUITimer_Set 0 10 1 2 false false 0 wEmptyModule =
      (.nullDeref, wEmptyModule, false) := by
  decide

/-- Claim C10: with the service running and no entry carrying the id, Pause,
Continue and Reset each return -1 leaving the module unchanged yet still
signal the wake condition, while Free returns -1 leaving the module unchanged
without signalling. -/
theorem C10_notfound_effects (now tid n_ms : Int) (m : TimerModule)
    (hrun : m.is_running = true) (hnf : TimerList_Find tid m.timer_list = none) :
    LCUITimer_Pause now tid m = (-1, m, true) ∧
    LCUITimer_Continue now tid m = (-1, m, true) ∧
    LCUITimer_Reset now tid n_ms m = (-1, m, true) ∧
    LCUITimer_Free tid m = (-1, m, false) := by
  have hids : ∀ u ∈ m.timer_list, u.id ≠ tid :=
    (TimerList_Find_eq_none tid m.timer_list).1 hnf
  refine ⟨?_, ?_, ?_, ?_⟩
  · simp [LCUITimer_Pause, hrun, (updateById_eq_none tid _ m.timer_list).2 hids]
  · simp [LCUITimer_Continue, hrun, (updateById_eq_none tid _ m.timer_list).2 hids]
  · simp [LCUITimer_Reset, hrun, (updateById_eq_none tid _ m.timer_list).2 hids]
  · simp [LCUITimer_Free, hrun, (removeById_eq_none tid m.timer_list).2 hids]

/-- Witness for C10: id 99 is absent from the fixture module; Pause, Continue
and Reset fail yet signal, Free fails without signalling. -/
theorem C10_notfound_effects_witness :
    LCUITimer_Pause 5 99 wModule1 = (-1, wModule1, true) ∧
    LCUITimer_Continue 5 99 wModule1 = (-1, wModule1, true) ∧
    LCUITimer_Reset 5 99 7 wModule1 = (-1, wModule1, true) ∧
    LCUITimer_Free 99 wModule1 = (-1, wModule1, false) :=
  C10_notfound_effects 5 99 7 wModule1 (by decide) (by decide)
